import Mathlib

/-!
Shallow embedding of the libtock-rs userland syscall layer
(src/syscalls/mod.rs) together with the two ownership-bearing handle
types it returns (CallbackSubscription and SharedMemory).

The raw trap interface (architecture specific, behind `mod platform`)
is modelled as an oracle `kernel : Trap → Int` giving the status word the
kernel returns for each trap, and the embedding threads an explicit trace
of issued traps so that properties of the form "issues exactly one trap"
become statements about the trace.
-/

/-- A function-pointer word passed to the raw subscribe trap. The layer
instantiates one monomorphic C-ABI trampoline per concrete callback type
(`c_callback::<CB>`), identified here by the type id; `noop` is the sentinel
no-op callback installed when a subscription slot is cleared. -/
inductive FnPtr where
  | cCallback (typeId : Nat)
  | noop
deriving DecidableEq, Repr

/-- A raw kernel trap as issued at the trap boundary, one constructor per
raw entry point (`raw::command`, `raw::command1`, `raw::subscribe`,
`raw::allow`), carrying exactly the argument words the source passes. -/
inductive Trap where
  | command (driver cmd arg1 arg2 : Nat)
  | command1 (driver cmd arg : Nat)
  | subscribe (driver sub : Nat) (fnPtr : FnPtr) (userdata : Nat)
  | allow (driver allowNum : Nat) (ptr len : Nat)
deriving DecidableEq, Repr

/-- The state of the embedding: the kernel modelled as a status oracle, and
the trace of traps issued so far. -/
structure Sys where
  kernel : Trap → Int
  trace : List Trap

/-- Issue one raw trap: record it in the trace and return the status word
the kernel gives for it. -/
def rawTrap (s : Sys) (t : Trap) : Int × Sys :=
  (s.kernel t, { s with trace := s.trace ++ [t] })

/-- A reference to a concrete callback object: the id of its concrete type
CB (which selects the monomorphized trampoline) and its address
(`callback as *mut CB as usize` in the source). -/
structure CallbackRef where
  typeId : Nat
  addr : Nat
deriving DecidableEq, Repr

/-- The callback-subscription handle, identifying a
(driver_number, subscribe_number) pair. -/
structure CallbackSubscription where
  driver_number : Nat
  subscribe_number : Nat
deriving DecidableEq, Repr

/-- Modelled from the spec: the constructor `CallbackSubscription::new`
(src/callback.rs, not under src/) stores the identifying pair; the call
site in src/syscalls/mod.rs passes `(driver_number, subscribe_number)`. -/
def CallbackSubscription.new (driver_number subscribe_number : Nat) :
    CallbackSubscription :=
  ⟨driver_number, subscribe_number⟩

/-- A caller-owned byte buffer, by its address and length. -/
structure Buffer where
  ptr : Nat
  len : Nat
deriving DecidableEq, Repr

/-- The shared-memory handle, identifying a (driver_number, allow_number)
pair and wrapping the shared buffer. -/
structure SharedMemory where
  driver_number : Nat
  allow_number : Nat
  buffer : Buffer
deriving DecidableEq, Repr

/-- Modelled from the spec: the constructor `SharedMemory::new`
(src/shared_memory.rs, not under src/) wraps the identifying pair and the
buffer; the call site in src/syscalls/mod.rs passes
`(driver_number, allow_number, buffer_to_share)`. -/
def SharedMemory.new (driver_number allow_number : Nat) (buffer : Buffer) :
    SharedMemory :=
  ⟨driver_number, allow_number, buffer⟩

/-- `subscribe_fn` from src/syscalls/mod.rs: forwards its four arguments
unchanged to the raw subscribe trap. -/
def subscribe_fn (s : Sys) (driver_number subscribe_number : Nat)
    (callback : FnPtr) (userdata : Nat) : Int × Sys :=
  rawTrap s (Trap.subscribe driver_number subscribe_number callback userdata)

/-- `subscribe` from src/syscalls/mod.rs: issues the raw subscribe trap
with the monomorphized trampoline for CB and the address of the callback
object as the context word; on status 0 returns an owned handle for the
pair, otherwise the raw status as the error. -/
def subscribe (s : Sys) (driver_number subscribe_number : Nat)
    (callback : CallbackRef) : Except Int CallbackSubscription × Sys :=
  let r := subscribe_fn s driver_number subscribe_number
      (FnPtr.cCallback callback.typeId) callback.addr
  ((if r.1 = 0 then
      Except.ok (CallbackSubscription.new driver_number subscribe_number)
    else
      Except.error r.1), r.2)

/-- The body of the monomorphized trampoline `c_callback::<CB>` from
src/syscalls/mod.rs: memory holding CB objects is modelled as a map from
addresses to CB values; the trampoline casts the context word `data` back
to a reference to the CB object stored there, invokes `call_rust` on it
with the three event argument words, and the mutation is written back at
that address. -/
def c_callback {CB : Type} (call_rust : CB → Nat → Nat → Nat → CB)
    (heap : Nat → CB) (arg1 arg2 arg3 data : Nat) : Nat → CB :=
  fun a => if a = data then call_rust (heap data) arg1 arg2 arg3 else heap a

/-- `command` from src/syscalls/mod.rs: one raw command trap, raw status
returned as-is. -/
def command (s : Sys) (driver_number command_number arg1 arg2 : Nat) :
    Int × Sys :=
  rawTrap s (Trap.command driver_number command_number arg1 arg2)

/-- `command1_insecure` from src/syscalls/mod.rs: one raw one-argument
command trap, raw status returned as-is. -/
def command1_insecure (s : Sys) (driver_number command_number arg : Nat) :
    Int × Sys :=
  rawTrap s (Trap.command1 driver_number command_number arg)

/-- `allow` from src/syscalls/mod.rs: issues the raw allow trap with the
address of the first byte of the buffer and its full length; on status 0
returns an owned SharedMemory wrapping the pair and the buffer, otherwise
the raw status as the error. -/
def allow (s : Sys) (driver_number allow_number : Nat)
    (buffer_to_share : Buffer) : Except Int SharedMemory × Sys :=
  let len := buffer_to_share.len
  let r := rawTrap s
      (Trap.allow driver_number allow_number buffer_to_share.ptr len)
  ((if r.1 = 0 then
      Except.ok (SharedMemory.new driver_number allow_number buffer_to_share)
    else
      Except.error r.1), r.2)

/-- Modelled from the spec: the `Drop` implementation of
`CallbackSubscription` (src/callback.rs, not under src/) re-invokes the
raw subscribe trap via `subscribe_fn` with the sentinel no-op function
pointer and null (zero) context for the same pair; the status of that
trap is not observable at scope exit. -/
def CallbackSubscription.drop (h : CallbackSubscription) (s : Sys) : Sys :=
  (subscribe_fn s h.driver_number h.subscribe_number FnPtr.noop 0).2

/-- Modelled from the spec: explicit unregister of a
`CallbackSubscription` (src/callback.rs, not under src/) issues the same
clear-slot trap as `drop` but surfaces the raw status of the trap for
caller inspection; the handle is consumed either way. -/
def CallbackSubscription.unregister (h : CallbackSubscription) (s : Sys) :
    Int × Sys :=
  subscribe_fn s h.driver_number h.subscribe_number FnPtr.noop 0

/-- Modelled from the spec: the `Drop` implementation of `SharedMemory`
(src/shared_memory.rs, not under src/) re-invokes the raw allow trap with
a null pointer and zero length for the same pair; the status of that trap
is not observable at scope exit. -/
def SharedMemory.drop (m : SharedMemory) (s : Sys) : Sys :=
  (rawTrap s (Trap.allow m.driver_number m.allow_number 0 0)).2

/-- Modelled from the spec: explicit reclaim of a `SharedMemory` handle
(src/shared_memory.rs, not under src/) issues the same zero-length
reclaim trap as `drop` but surfaces the raw status for caller inspection;
the handle is consumed either way. -/
def SharedMemory.reclaim (m : SharedMemory) (s : Sys) : Int × Sys :=
  rawTrap s (Trap.allow m.driver_number m.allow_number 0 0)

/-- Modelled from the spec: the trap-argument register convention of the
architecture layer (platform_riscv32.rs / platform_arm.rs, not under
src/). Four argument registers carry driver number, command number and
two argument words. -/
structure Regs where
  rDriver : Nat
  rCmd : Nat
  rArg1 : Nat
  rArg2 : Nat
deriving DecidableEq, Repr

/-- Modelled from the spec: `raw::command` populates all four argument
registers before trapping. -/
def setRegsCommand (_r : Regs) (driver cmd arg1 arg2 : Nat) : Regs :=
  ⟨driver, cmd, arg1, arg2⟩

/-- Modelled from the spec: `raw::command1` populates only one argument
register, leaving the prior contents of the second argument register
as-is, exposed to the called driver. -/
def setRegsCommand1 (r : Regs) (driver cmd arg : Nat) : Regs :=
  ⟨driver, cmd, arg, r.rArg2⟩

/-- Recognises a clear-slot trap for a given pair: a raw subscribe trap
with the sentinel no-op function pointer and null context. -/
def isClearSlot (driver sub : Nat) : Trap → Bool
  | Trap.subscribe d n FnPtr.noop 0 => d == driver && n == sub
  | _ => false

/-- Concrete kernel oracle that accepts every trap. -/
def kernelOk : Trap → Int := fun _ => 0

/-- Concrete kernel oracle that rejects every trap with status -1. -/
def kernelErr : Trap → Int := fun _ => -1

/-- Concrete initial state with an accepting kernel and empty trace. -/
def sysOk : Sys := ⟨kernelOk, []⟩

/-- Concrete initial state with a rejecting kernel and empty trace. -/
def sysErr : Sys := ⟨kernelErr, []⟩

/-- Concrete callback reference used by witnesses. -/
def cb0 : CallbackRef := ⟨7, 42⟩

/-- Concrete ten-byte buffer used by witnesses. -/
def buf10 : Buffer := ⟨100, 10⟩

/-- C1: for every driver_number, subscribe_number and callback, `subscribe`
returns Ok with a CallbackSubscription identifying exactly that
(driver_number, subscribe_number) pair if and only if the raw subscribe
trap returns status 0; for every non-zero status it returns Err carrying
that raw status unchanged and constructs no handle. -/
theorem subscribe_ok_iff_status_zero (s : Sys) (d n : Nat) (cb : CallbackRef) :
    (∀ h : CallbackSubscription, (subscribe s d n cb).1 = Except.ok h →
        h.driver_number = d ∧ h.subscribe_number = n)
    ∧ ((∃ h : CallbackSubscription, (subscribe s d n cb).1 = Except.ok h) ↔
        s.kernel (Trap.subscribe d n (FnPtr.cCallback cb.typeId) cb.addr) = 0)
    ∧ (s.kernel (Trap.subscribe d n (FnPtr.cCallback cb.typeId) cb.addr) ≠ 0 →
        (subscribe s d n cb).1 =
          Except.error
            (s.kernel (Trap.subscribe d n (FnPtr.cCallback cb.typeId) cb.addr))) := by
  by_cases hc :
      s.kernel (Trap.subscribe d n (FnPtr.cCallback cb.typeId) cb.addr) = 0 <;>
    simp [subscribe, subscribe_fn, rawTrap, CallbackSubscription.new, hc]

/-- Witness for C1 at concrete inputs. -/
theorem subscribe_ok_iff_status_zero_attained :
    (∀ h : CallbackSubscription, (subscribe sysOk 1 0 cb0).1 = Except.ok h →
        h.driver_number = 1 ∧ h.subscribe_number = 0)
    ∧ ((∃ h : CallbackSubscription, (subscribe sysOk 1 0 cb0).1 = Except.ok h) ↔
        sysOk.kernel (Trap.subscribe 1 0 (FnPtr.cCallback cb0.typeId) cb0.addr) = 0)
    ∧ (sysOk.kernel (Trap.subscribe 1 0 (FnPtr.cCallback cb0.typeId) cb0.addr) ≠ 0 →
        (subscribe sysOk 1 0 cb0).1 =
          Except.error
            (sysOk.kernel (Trap.subscribe 1 0 (FnPtr.cCallback cb0.typeId) cb0.addr))) :=
  subscribe_ok_iff_status_zero sysOk 1 0 cb0

/-- C2: for every driver_number, allow_number and mutable byte buffer,
`allow` returns Ok with a SharedMemory wrapping that
(driver_number, allow_number) pair and the buffer if and only if the raw
allow trap returns status 0; for every non-zero status it returns Err
carrying that raw status unchanged and constructs no handle, so the
buffer is not wrapped by any handle and stays with the caller. -/
theorem allow_ok_iff_status_zero (s : Sys) (d n : Nat) (buf : Buffer) :
    (∀ m : SharedMemory, (allow s d n buf).1 = Except.ok m →
        m.driver_number = d ∧ m.allow_number = n ∧ m.buffer = buf)
    ∧ ((∃ m : SharedMemory, (allow s d n buf).1 = Except.ok m) ↔
        s.kernel (Trap.allow d n buf.ptr buf.len) = 0)
    ∧ (s.kernel (Trap.allow d n buf.ptr buf.len) ≠ 0 →
        (allow s d n buf).1 =
          Except.error (s.kernel (Trap.allow d n buf.ptr buf.len))) := by
  by_cases hc : s.kernel (Trap.allow d n buf.ptr buf.len) = 0 <;>
    simp [allow, rawTrap, SharedMemory.new, hc]

/-- Witness for C2 at the concrete scenario of the spec: driver 2, allow
slot 3, a ten-byte buffer, kernel status -1. -/
theorem allow_ok_iff_status_zero_attained :
    (∀ m : SharedMemory, (allow sysErr 2 3 buf10).1 = Except.ok m →
        m.driver_number = 2 ∧ m.allow_number = 3 ∧ m.buffer = buf10)
    ∧ ((∃ m : SharedMemory, (allow sysErr 2 3 buf10).1 = Except.ok m) ↔
        sysErr.kernel (Trap.allow 2 3 buf10.ptr buf10.len) = 0)
    ∧ (sysErr.kernel (Trap.allow 2 3 buf10.ptr buf10.len) ≠ 0 →
        (allow sysErr 2 3 buf10).1 =
          Except.error (sysErr.kernel (Trap.allow 2 3 buf10.ptr buf10.len))) :=
  allow_ok_iff_status_zero sysErr 2 3 buf10

/-- C3: for every (driver, sub) pair, a successful subscribe followed by
release of the returned CallbackSubscription issues exactly one raw
subscribe trap for that exact pair with the no-op function pointer and
null (zero) context word: the combined trace appends exactly the
registration trap and the single clear-slot trap. -/
theorem subscribe_then_release_clears_once (s : Sys) (d n : Nat)
    (cb : CallbackRef) (h : CallbackSubscription)
    (hok : (subscribe s d n cb).1 = Except.ok h) :
    (CallbackSubscription.drop h (subscribe s d n cb).2).trace =
      s.trace ++ [Trap.subscribe d n (FnPtr.cCallback cb.typeId) cb.addr,
        Trap.subscribe d n FnPtr.noop 0]
    ∧ List.countP (fun t => decide (t = Trap.subscribe d n FnPtr.noop 0))
        [Trap.subscribe d n (FnPtr.cCallback cb.typeId) cb.addr,
         Trap.subscribe d n FnPtr.noop 0] = 1 := by
  have hh : h = CallbackSubscription.new d n := by
    by_cases hc :
        s.kernel (Trap.subscribe d n (FnPtr.cCallback cb.typeId) cb.addr) = 0 <;>
      simp [subscribe, subscribe_fn, rawTrap, hc] at hok
    exact hok.symm
  subst hh
  constructor
  · simp [CallbackSubscription.drop, subscribe, subscribe_fn, rawTrap,
      CallbackSubscription.new]
  · simp [List.countP_cons, List.countP_nil]

/-- Witness for C3 at the concrete scenario of the spec: driver 1, slot 0,
an accepting kernel. -/
theorem subscribe_then_release_clears_once_attained :
    (CallbackSubscription.drop ⟨1, 0⟩ (subscribe sysOk 1 0 cb0).2).trace =
      sysOk.trace ++ [Trap.subscribe 1 0 (FnPtr.cCallback cb0.typeId) cb0.addr,
        Trap.subscribe 1 0 FnPtr.noop 0]
    ∧ List.countP (fun t => decide (t = Trap.subscribe 1 0 FnPtr.noop 0))
        [Trap.subscribe 1 0 (FnPtr.cCallback cb0.typeId) cb0.addr,
         Trap.subscribe 1 0 FnPtr.noop 0] = 1 :=
  subscribe_then_release_clears_once sysOk 1 0 cb0 ⟨1, 0⟩ rfl

/-- C4: for every (driver, allow) pair and every buffer, a successful
allow followed by release of the returned SharedMemory handle issues
exactly one raw allow reclaim trap for that exact pair with null pointer
and length 0. The hypothesis that the buffer address is non-null reflects
that Rust slice pointers are never null. -/
theorem allow_then_release_reclaims_once (s : Sys) (d n : Nat)
    (buf : Buffer) (m : SharedMemory)
    (hok : (allow s d n buf).1 = Except.ok m) (hptr : buf.ptr ≠ 0) :
    (SharedMemory.drop m (allow s d n buf).2).trace =
      s.trace ++ [Trap.allow d n buf.ptr buf.len, Trap.allow d n 0 0]
    ∧ List.countP (fun t => decide (t = Trap.allow d n 0 0))
        [Trap.allow d n buf.ptr buf.len, Trap.allow d n 0 0] = 1 := by
  have hm : m = SharedMemory.new d n buf := by
    by_cases hc : s.kernel (Trap.allow d n buf.ptr buf.len) = 0 <;>
      simp [allow, rawTrap, hc] at hok
    exact hok.symm
  subst hm
  constructor
  · simp [SharedMemory.drop, allow, rawTrap, SharedMemory.new]
  · simp [List.countP_cons, List.countP_nil, hptr]

/-- Witness for C4 at concrete inputs: driver 2, allow slot 3, a ten-byte
buffer at address 100, an accepting kernel. -/
theorem allow_then_release_reclaims_once_attained :
    (SharedMemory.drop ⟨2, 3, buf10⟩ (allow sysOk 2 3 buf10).2).trace =
      sysOk.trace ++ [Trap.allow 2 3 buf10.ptr buf10.len, Trap.allow 2 3 0 0]
    ∧ List.countP (fun t => decide (t = Trap.allow 2 3 0 0))
        [Trap.allow 2 3 buf10.ptr buf10.len, Trap.allow 2 3 0 0] = 1 :=
  allow_then_release_reclaims_once sysOk 2 3 buf10 ⟨2, 3, buf10⟩ rfl (by decide)

/-- C6: release always completes structurally for every kernel status:
scope-exit drop of either handle appends its clear/reclaim trap to the
trace whatever status the kernel oracle assigns it, and the explicit
release operations surface exactly the raw status of that trap for caller
inspection. -/
theorem release_unconditional (s : Sys) (h : CallbackSubscription)
    (m : SharedMemory) :
    ((CallbackSubscription.unregister h s).1 =
        s.kernel (Trap.subscribe h.driver_number h.subscribe_number FnPtr.noop 0))
    ∧ ((CallbackSubscription.unregister h s).2.trace =
        s.trace ++ [Trap.subscribe h.driver_number h.subscribe_number FnPtr.noop 0])
    ∧ ((CallbackSubscription.drop h s).trace =
        s.trace ++ [Trap.subscribe h.driver_number h.subscribe_number FnPtr.noop 0])
    ∧ ((SharedMemory.reclaim m s).1 =
        s.kernel (Trap.allow m.driver_number m.allow_number 0 0))
    ∧ ((SharedMemory.drop m s).trace =
        s.trace ++ [Trap.allow m.driver_number m.allow_number 0 0]) :=
  ⟨rfl, rfl, rfl, rfl, rfl⟩

/-- C7: subscribe registers the dedicated trampoline for the concrete
callback type together with the callback object address as the context
word, and the trampoline invoked with three event argument words and that
context word reconstructs the callback object stored at that address and
dispatches to it with the three argument words unchanged and in order. -/
theorem trampoline_registration_and_dispatch (CB : Type)
    (call_rust : CB → Nat → Nat → Nat → CB) (heap : Nat → CB)
    (s : Sys) (d n a1 a2 a3 : Nat) (cb : CallbackRef) :
    ((subscribe s d n cb).2.trace =
        s.trace ++ [Trap.subscribe d n (FnPtr.cCallback cb.typeId) cb.addr])
    ∧ (c_callback call_rust heap a1 a2 a3 cb.addr cb.addr =
        call_rust (heap cb.addr) a1 a2 a3) := by
  constructor
  · rfl
  · simp [c_callback]

/-- C8: command issues exactly one raw command trap with its four
arguments unchanged and returns the raw status value as-is, leaving the
kernel untouched. -/
theorem command_is_raw (s : Sys) (d c a1 a2 : Nat) :
    (command s d c a1 a2).1 = s.kernel (Trap.command d c a1 a2)
    ∧ (command s d c a1 a2).2.trace = s.trace ++ [Trap.command d c a1 a2]
    ∧ (command s d c a1 a2).2.kernel = s.kernel :=
  ⟨rfl, rfl, rfl⟩

/-- C9: command1_insecure issues exactly one raw one-argument command trap
with its three arguments unchanged and returns the raw status value
uninterpreted; at the register level it populates only one argument
register, leaving the prior contents of the second argument register
exposed to the driver. -/
theorem command1_insecure_is_raw (s : Sys) (r : Regs) (d c a : Nat) :
    (command1_insecure s d c a).1 = s.kernel (Trap.command1 d c a)
    ∧ (command1_insecure s d c a).2.trace = s.trace ++ [Trap.command1 d c a]
    ∧ setRegsCommand1 r d c a = ⟨d, c, a, r.rArg2⟩
    ∧ (setRegsCommand1 r d c a).rArg2 = r.rArg2 :=
  ⟨rfl, rfl, rfl, rfl⟩

/-- C10: every call to allow passes to the raw allow trap exactly the
address of the first byte of the buffer and its full length, and a
successful SharedMemory handle wraps that same full buffer. -/
theorem allow_passes_full_buffer (s : Sys) (d n : Nat) (buf : Buffer) :
    ((allow s d n buf).2.trace = s.trace ++ [Trap.allow d n buf.ptr buf.len])
    ∧ (∀ m : SharedMemory, (allow s d n buf).1 = Except.ok m →
        m.buffer = buf) := by
  by_cases hc : s.kernel (Trap.allow d n buf.ptr buf.len) = 0 <;>
    simp [allow, rawTrap, SharedMemory.new, hc]

/-- Witness for C10 at concrete inputs. -/
theorem allow_passes_full_buffer_attained :
    ((allow sysOk 2 3 buf10).2.trace =
        sysOk.trace ++ [Trap.allow 2 3 buf10.ptr buf10.len])
    ∧ (∀ m : SharedMemory, (allow sysOk 2 3 buf10).1 = Except.ok m →
        m.buffer = buf10) :=
  allow_passes_full_buffer sysOk 2 3 buf10
